import Mathlib

/-!
Shallow embedding of the client-lifecycle core of `src/awg/api_server.py`
(a WireGuard VPN manager API). The per-user traffic files under
`files/traffic/` are modelled as parsed JSON objects (ordered association
lists with Python dict semantics); the `db` module is not part of the
sources, so its operations are modelled from the design document (Client
Store, Policy Ledger). Subprocess invocations are modelled against an
exit-status oracle together with a trace of the commands that were run.
-/

namespace AwgApi

/-- A JSON value as it occurs in the per-user traffic files. -/
inductive JVal where
  | jnum : Int → JVal
  | jstr : String → JVal
  | jnull : JVal
deriving DecidableEq, Repr

/-- A parsed JSON object: an ordered association list, as a Python dict. -/
abbrev JObj := List (String × JVal)

/-- Ordered lookup in an association list (a Python dict read). -/
def alookup {α : Type} : List (String × α) → String → Option α
  | [], _ => none
  | (k, v) :: rest, key => if k = key then some v else alookup rest key

/-- Python dict assignment: overwrite in place when the key is present,
append at the end otherwise. -/
def aset {α : Type} : List (String × α) → String → α → List (String × α)
  | [], key, val => [(key, val)]
  | (k, v) :: rest, key, val =>
      if k = key then (k, val) :: rest else (k, v) :: aset rest key val

theorem alookup_aset_self {α : Type} (l : List (String × α)) (k : String) (v : α) :
    alookup (aset l k v) k = some v := by
  induction l with
  | nil => simp [aset, alookup]
  | cons hd tl ih =>
      obtain ⟨k0, v0⟩ := hd
      by_cases h : k0 = k
      · simp [aset, alookup, h]
      · simp [aset, alookup, h, ih]

theorem alookup_aset_ne {α : Type} (l : List (String × α)) (k key : String) (v : α)
    (h : key ≠ k) : alookup (aset l k v) key = alookup l key := by
  have hk : ¬ k = key := fun hc => h hc.symm
  induction l with
  | nil => simp [aset, alookup, hk]
  | cons hd tl ih =>
      obtain ⟨k0, v0⟩ := hd
      by_cases h0 : k0 = k
      · subst h0
        simp [aset, alookup, hk]
      · simp [aset, alookup, h0, ih]

/-- The process configuration read through `db.get_config()`:
the docker container name and the interface configuration file used by
the `wg-quick` invocations. -/
structure Config where
  docker_container : String
  wg_config_file : String
deriving DecidableEq, Repr

/-- One record of the db client table as consumed by `api_server.py`
(`client[userData]` is the username, `client[clientId]` the public key);
the activation flag is the Client Store state the design document calls
`active`. -/
structure ClientRecord where
  userData : String
  clientId : String
  active : Bool
deriving DecidableEq, Repr

/-- Modelled from the spec: the `db` module is not under the sources; its
state is the Client Store (client records in insertion order, §4.1), the
Policy Ledger (per-username expiration and traffic limit, §4.2), the db
traffic totals read by `db.read_traffic`, the per-user rendered config
artifacts, and the process configuration. -/
structure Db where
  clients : List ClientRecord
  policies : List (String × (Option Nat × Option String))
  dbTraffic : List (String × Nat)
  userConfigs : List (String × String)
  config : Config
deriving DecidableEq, Repr

/-- The server-side state touched by `api_server.py`: the db state, the
parsed `files/traffic/<username>_traffic.json` files keyed by username
(presence of a key means the file exists), and the trace of subprocess
invocations performed so far. -/
structure ServerState where
  db : Db
  trafficFiles : List (String × JObj)
  ranCmds : List (List String)
deriving DecidableEq, Repr

/-- The Python exceptions surfaced by the code: `fastapi.HTTPException`
(status code and detail), `subprocess.CalledProcessError` (return code and
command), and the modelled db-module failures. -/
inductive ApiError where
  | http : Nat → String → ApiError
  | calledProcess : Int → List String → ApiError
  | duplicateClient : String → ApiError
  | notFound : String → ApiError
deriving DecidableEq, Repr

/-- `str(e)` for the exceptions above; the db-module message texts are
modelled (no claim depends on them). -/
def errStr : ApiError → String
  | .http code detail => toString code ++ ": " ++ detail
  | .calledProcess rc cmd =>
      "Command " ++ String.intercalate " " cmd ++
        " returned non-zero exit status " ++ toString rc ++ "."
  | .duplicateClient u => "client " ++ u ++ " already exists"
  | .notFound u => "user " ++ u ++ " not found"

/-- Modelled from the spec: `db.root_add` is the Client Store `Add` (§4.1) —
fails `DuplicateClient` when the username already exists, leaving the store
unchanged; otherwise appends the record as active and writes the rendered
per-user config artifact. The fresh key and the rendered config text are
passed in, since key generation and config rendering are excluded
collaborators (§6). -/
def Db.root_add (d : Db) (username freshKey configText : String) : Except ApiError Db :=
  if d.clients.any (fun c => c.userData = username) then
    .error (.duplicateClient username)
  else
    .ok { d with
          clients := d.clients ++ [⟨username, freshKey, true⟩],
          userConfigs := aset d.userConfigs username configText }

/-- Modelled from the spec: `db.get_active_list` is the Client Store `List`
(§4.1) — the client records in insertion order. -/
def Db.get_active_list (d : Db) : List ClientRecord := d.clients

/-- Modelled from the spec: `db.deactive_user_db` is the Client Store
`SetActive(username, false)` (§4.1) — marks the client record inactive and
fails `NotFound` when the username is absent. Deactivation preserves
history (§3): no other store is touched. -/
def Db.deactive_user_db (d : Db) (username : String) : Except ApiError Db :=
  if d.clients.any (fun c => c.userData = username) then
    .ok { d with
          clients := d.clients.map fun c =>
            if c.userData = username then { c with active := false } else c }
  else
    .error (.notFound username)

/-- Modelled from the spec: `db.set_user_expiration` is the Policy Ledger
`SetPolicy` (§4.2) — upserts the policy record; omitted fields clear the
corresponding limit. -/
def Db.set_user_expiration (d : Db) (username : String)
    (expiration : Option Nat) (traffic_limit : Option String) : Db :=
  { d with policies := aset d.policies username (expiration, traffic_limit) }

/-- Modelled from the spec: the expiration component of `GetPolicy` (§4.2). -/
def Db.get_user_expiration (d : Db) (username : String) : Option Nat :=
  (alookup d.policies username).bind (fun p => p.1)

/-- Modelled from the spec: the traffic-limit component of `GetPolicy` (§4.2). -/
def Db.get_user_traffic_limit (d : Db) (username : String) : Option String :=
  (alookup d.policies username).bind (fun p => p.2)

/-- Modelled from the spec: `db.read_traffic` is not under the sources;
`api_server.py` only tests its result for truthiness and reads its `total`
field, so it is modelled as an optional cumulative byte total per
username. -/
def Db.read_traffic (d : Db) (username : String) : Option Nat :=
  alookup d.dbTraffic username

/-- Modelled from the spec: `db.get_config` returns the process
configuration. -/
def Db.get_config (d : Db) : Config := d.config

/-- Request body of `POST /clients/` (timestamps as naturals). -/
structure ClientCreate where
  username : String
  expiration : Option Nat
  traffic_limit : Option String
  ipv6 : Bool
deriving DecidableEq, Repr

/-- Response model of `POST /clients/` and of the config endpoint. -/
structure ClientResponse where
  username : String
  config : String
  qr_code : String
  token : String
deriving DecidableEq, Repr

/-- Response model of `GET /clients/` and `PATCH /clients/<username>`. -/
structure ClientInfo where
  username : String
  public_key : String
  created_at : Nat
  expiration : Option Nat
  traffic_limit : Option String
  traffic_used : Option String
  is_active : Bool
deriving DecidableEq, Repr

/-- `POST /clients/` (`create_client`): calls `db.root_add`, applies the
optional policy via `db.set_user_expiration`, then reads back the rendered
config artifact (HTTP 500 when it is missing) and returns it with its QR
code and token. QR rendering and token encoding are excluded pure
collaborators passed in as functions. Any exception is re-raised as
`HTTPException(500, str(e))` by the blanket except clause. -/
def create_client (qrOf tokenOf : String → String) (freshKey configText : String)
    (st : ServerState) (client : ClientCreate) :
    ServerState × Except ApiError ClientResponse :=
  match st.db.root_add client.username freshKey configText with
  | .error e => (st, .error (.http 500 (errStr e)))
  | .ok d =>
      let d :=
        if client.expiration.isSome || client.traffic_limit.isSome then
          d.set_user_expiration client.username client.expiration client.traffic_limit
        else d
      let st1 : ServerState := { st with db := d }
      match alookup st1.db.userConfigs client.username with
      | none => (st1, .error (.http 500 "500: Failed to create client configuration"))
      | some cfg => (st1, .ok ⟨client.username, cfg, qrOf cfg, tokenOf cfg⟩)

/-- `GET /clients/` (`list_clients`): maps every client of
`db.get_active_list()` to a `ClientInfo`; `created_at` is `datetime.now()`
at response time (the source comments that the creation date is not
stored), `is_active` is the literal `True`, and `traffic_used` formats the
db traffic total with `humanize.naturalsize` (an excluded collaborator,
passed in as `naturalsize`). -/
def list_clients (naturalsize : Nat → String) (now : Nat) (st : ServerState) :
    List ClientInfo :=
  st.db.get_active_list.map fun c =>
    { username := c.userData
      public_key := c.clientId
      created_at := now
      expiration := st.db.get_user_expiration c.userData
      traffic_limit := st.db.get_user_traffic_limit c.userData
      traffic_used := (st.db.read_traffic c.userData).map naturalsize
      is_active := true }

/-- `DELETE /clients/<username>` (`delete_client`): calls
`db.deactive_user_db` and reports success; any exception becomes
`HTTPException(500, str(e))`. -/
def delete_client (st : ServerState) (username : String) :
    ServerState × Except ApiError String :=
  match st.db.deactive_user_db username with
  | .ok d => ({ st with db := d }, .ok ("Client " ++ username ++ " successfully deleted"))
  | .error e => (st, .error (.http 500 (errStr e)))

/-- `PATCH /clients/<username>` (`update_client`): scans
`db.get_active_list()` for the username; when absent it raises
`HTTPException(404, "Client not found")`, which the surrounding blanket
except clause catches and re-raises as `HTTPException(500, str(e))`;
otherwise it upserts via `db.set_user_expiration` and returns the
refreshed info (`created_at` is again `datetime.now()`). -/
def update_client (naturalsize : Nat → String) (now : Nat) (st : ServerState)
    (username : String) (expiration : Option Nat) (traffic_limit : Option String) :
    ServerState × Except ApiError ClientInfo :=
  match st.db.get_active_list.find? (fun c => c.userData = username) with
  | none => (st, .error (.http 500 (errStr (.http 404 "Client not found"))))
  | some client_info =>
      let d := st.db.set_user_expiration username expiration traffic_limit
      let st1 : ServerState := { st with db := d }
      (st1, .ok
        { username := username
          public_key := client_info.clientId
          created_at := now
          expiration := expiration
          traffic_limit := traffic_limit
          traffic_used := (d.read_traffic username).map naturalsize
          is_active := true })

/-- `update_traffic`: reads the traffic file of the user when it exists
(otherwise starts from an empty dict), assigns the keys `incoming`,
`outgoing` and `last_update` (the formatted current time, passed in as
`now`), and writes the dict back. -/
def update_traffic (st : ServerState) (username : String)
    (incoming_bytes outgoing_bytes : Int) (now : String) : ServerState :=
  let current_data : JObj := (alookup st.trafficFiles username).getD []
  let current_data := aset current_data "incoming" (.jnum incoming_bytes)
  let current_data := aset current_data "outgoing" (.jnum outgoing_bytes)
  let current_data := aset current_data "last_update" (.jstr now)
  { st with trafficFiles := aset st.trafficFiles username current_data }

/-- `read_traffic`: returns the parsed traffic file of the user, or the
literal zero record (incoming 0, outgoing 0, last_update None) when the
file does not exist. -/
def read_traffic (st : ServerState) (username : String) : JObj :=
  match alookup st.trafficFiles username with
  | none => [("incoming", .jnum 0), ("outgoing", .jnum 0), ("last_update", .jnull)]
  | some data => data

/-- The `wg-quick down` invocation built in `deactivate_user`. -/
def wgDown (c : Config) : List String :=
  ["docker", "exec", c.docker_container, "wg-quick", "down", c.wg_config_file]

/-- The `wg-quick up` invocation built in `deactivate_user`. -/
def wgUp (c : Config) : List String :=
  ["docker", "exec", c.docker_container, "wg-quick", "up", c.wg_config_file]

/-- `subprocess.run(cmd, check=True)` against an exit-status oracle: the
command is recorded as executed; a non-zero status raises
`CalledProcessError` carrying that status. -/
def runCmd (osExec : List String → Int) (st : ServerState) (cmd : List String) :
    ServerState × Option ApiError :=
  let st1 : ServerState := { st with ranCmds := st.ranCmds ++ [cmd] }
  if osExec cmd = 0 then (st1, none) else (st1, some (.calledProcess (osExec cmd) cmd))

/-- `deactivate_user`: reads the config, brings the interface down,
deactivates the user in the db, brings the interface up. An exception at
any step propagates, leaving the effects already performed in place. -/
def deactivate_user (osExec : List String → Int) (st : ServerState)
    (username : String) : ServerState × Option ApiError :=
  let config := st.db.get_config
  match runCmd osExec st (wgDown config) with
  | (st1, some e) => (st1, some e)
  | (st1, none) =>
      match st1.db.deactive_user_db username with
      | .error e => (st1, some e)
      | .ok d =>
          let st2 : ServerState := { st1 with db := d }
          runCmd osExec st2 (wgUp config)

/-- `POST /client/<username>/deactivate` (`deactivate_client`): on success
returns the status string `success`; an exception becomes
`HTTPException(500, str(e))`. -/
def deactivate_client (osExec : List String → Int) (st : ServerState)
    (username : String) : ServerState × Except ApiError String :=
  match deactivate_user osExec st username with
  | (st1, none) => (st1, .ok "success")
  | (st1, some e) => (st1, .error (.http 500 (errStr e)))

/-! Concrete fixtures used by the closed witnesses and counterexamples. -/

/-- A concrete process configuration. -/
def cfg0 : Config := ⟨"amnezia-awg", "/opt/awg/wg0.conf"⟩

/-- A db with a single active client alice and empty ledgers. -/
def db1 : Db := ⟨[⟨"alice", "pk_alice", true⟩], [], [], [("alice", "conf_alice")], cfg0⟩

/-- A server state over `db1` with no traffic files and an empty trace. -/
def st1 : ServerState := ⟨db1, [], []⟩

/-- A server state whose traffic file for alice holds counters and an
extra key not written by `update_traffic`. -/
def stTr : ServerState :=
  ⟨db1, [("alice", [("incoming", .jnum 7), ("outgoing", .jnum 3), ("custom", .jstr "keep")])], []⟩

/-- A concrete stand-in for `humanize.naturalsize`. -/
def ns0 : Nat → String := fun n => toString n

/-- An exit-status oracle under which every command succeeds. -/
def okExec : List String → Int := fun _ => 0

/-- C2: for every state and username, when no traffic record exists
(`read_traffic` finds no traffic file for the username), the returned
record has zero incoming and zero outgoing counters and a null
last_update — the missing-file branch returns this literal instead of
raising. -/
theorem C2_read_traffic_zeros (st : ServerState) (username : String)
    (h : alookup st.trafficFiles username = none) :
    read_traffic st username =
      [("incoming", JVal.jnum 0), ("outgoing", JVal.jnum 0), ("last_update", JVal.jnull)] := by
  simp [read_traffic, h]

theorem C2_witness :
    read_traffic st1 "alice" =
      [("incoming", JVal.jnum 0), ("outgoing", JVal.jnum 0), ("last_update", JVal.jnull)] :=
  C2_read_traffic_zeros st1 "alice" rfl

/-- C3: for every prior state, username, byte counters and timestamp,
`update_traffic` followed by `read_traffic` returns exactly the
last-recorded incoming and outgoing counters and the new timestamp,
whatever the traffic file held before. -/
theorem C3_update_then_read (st : ServerState) (username : String)
    (i o : Int) (now : String) :
    alookup (read_traffic (update_traffic st username i o now) username) "incoming"
        = some (JVal.jnum i) ∧
    alookup (read_traffic (update_traffic st username i o now) username) "outgoing"
        = some (JVal.jnum o) ∧
    alookup (read_traffic (update_traffic st username i o now) username) "last_update"
        = some (JVal.jstr now) := by
  have hfile :
      alookup (update_traffic st username i o now).trafficFiles username =
        some (aset (aset (aset ((alookup st.trafficFiles username).getD [])
          "incoming" (JVal.jnum i)) "outgoing" (JVal.jnum o)) "last_update" (JVal.jstr now)) := by
    simp [update_traffic, alookup_aset_self]
  refine ⟨?_, ?_, ?_⟩ <;>
    simp [read_traffic, hfile, alookup_aset_self, alookup_aset_ne]

/-- C10: `update_traffic` only writes the keys incoming, outgoing and
last_update into the traffic record of the user: every other key keeps
the value it had in the record the code read (the existing file or the
empty dict). -/
theorem C10_frame (st : ServerState) (username : String) (i o : Int) (now : String)
    (k : String) (h1 : k ≠ "incoming") (h2 : k ≠ "outgoing") (h3 : k ≠ "last_update") :
    alookup (read_traffic (update_traffic st username i o now) username) k =
      alookup ((alookup st.trafficFiles username).getD []) k := by
  have hfile :
      alookup (update_traffic st username i o now).trafficFiles username =
        some (aset (aset (aset ((alookup st.trafficFiles username).getD [])
          "incoming" (JVal.jnum i)) "outgoing" (JVal.jnum o)) "last_update" (JVal.jstr now)) := by
    simp [update_traffic, alookup_aset_self]
  simp [read_traffic, hfile, alookup_aset_ne _ _ _ _ h1, alookup_aset_ne _ _ _ _ h2,
    alookup_aset_ne _ _ _ _ h3]

theorem C10_witness :
    alookup (read_traffic (update_traffic stTr "alice" 100 200 "01.01.2025 00:00") "alice")
        "custom" = some (JVal.jstr "keep") := by
  have h := C10_frame stTr "alice" 100 200 "01.01.2025 00:00" "custom"
    (by decide) (by decide) (by decide)
  rw [h]
  rfl

/-- C9: every `ClientInfo` contained in the list returned by
`list_clients` carries `is_active = true`, whatever the state of the
underlying store (the source fills the field with the literal `True`). -/
theorem C9_list_all_active (naturalsize : Nat → String) (now : Nat) (st : ServerState)
    (c : ClientInfo) (h : c ∈ list_clients naturalsize now st) : c.is_active = true := by
  simp only [list_clients, List.mem_map] at h
  obtain ⟨a, _, rfl⟩ := h
  rfl

theorem C9_witness :
    (ClientInfo.mk "alice" "pk_alice" 0 none none none true).is_active = true :=
  C9_list_all_active ns0 0 st1 (ClientInfo.mk "alice" "pk_alice" 0 none none none true)
    (by simp [list_clients, st1, db1, Db.get_active_list, Db.get_user_expiration,
      Db.get_user_traffic_limit, Db.read_traffic, alookup])

/-- C6: the created_at reported for a client is not stable across reads —
listing the same unchanged store at two different times reports two
different created_at values for the same client, because the source fills
the field with `datetime.now()` on every read (its own comment records
that the creation date is not stored). -/
theorem C6_created_at_changes :
    ∃ c1 ∈ list_clients ns0 1 st1, ∃ c2 ∈ list_clients ns0 2 st1,
      c1.username = c2.username ∧ c1.created_at ≠ c2.created_at := by
  refine ⟨ClientInfo.mk "alice" "pk_alice" 1 none none none true, ?_,
    ClientInfo.mk "alice" "pk_alice" 2 none none none true, ?_, rfl, by decide⟩ <;>
    simp [list_clients, st1, db1, Db.get_active_list, Db.get_user_expiration,
      Db.get_user_traffic_limit, Db.read_traffic, alookup]

/-- C5: at the failing input (a username absent from the store)
`update_client` does fail without touching any ledger, but the
`HTTPException(404)` it raises is swallowed by the blanket except clause
and surfaces as status 500 instead of 404; when the username exists the
Policy Ledger is upserted with the given policy. -/
theorem C5_notfound_becomes_500 :
    (update_client ns0 0 st1 "ghost" none none).2 =
      .error (.http 500 (errStr (.http 404 "Client not found"))) ∧
    (update_client ns0 0 st1 "ghost" none none).1 = st1 ∧
    alookup (update_client ns0 0 st1 "alice" (some 9) (some "10GB")).1.db.policies "alice"
      = some (some 9, some "10GB") := by
  refine ⟨rfl, rfl, rfl⟩

/-- A db with alice already inactive. -/
def dbInactive : Db := ⟨[⟨"alice", "pk_alice", false⟩], [], [], [], cfg0⟩

/-- A server state where alice is already inactive and her traffic file
holds non-zero counters. -/
def stInactive : ServerState :=
  ⟨dbInactive, [("alice", [("incoming", .jnum 7), ("outgoing", .jnum 3)])], []⟩

/-- A db with an active client bob who has a policy record. -/
def dbBob : Db := ⟨[⟨"bob", "pk_bob", true⟩], [("bob", (some 5, some "1GB"))], [], [], cfg0⟩

/-- A server state over `dbBob` with a traffic file for bob. -/
def stBob : ServerState := ⟨dbBob, [("bob", [("incoming", .jnum 11)])], []⟩

/-- A server state over an empty db. -/
def stEmpty : ServerState := ⟨⟨[], [], [], [], cfg0⟩, [], []⟩

/-- An exit-status oracle under which only the wg-quick up step fails. -/
def badExec : List String → Int := fun cmd => if cmd = wgUp cfg0 then 1 else 0

/-- A concrete stand-in for the QR and token encoders. -/
def strId : String → String := fun s => s

/-- C1 counterexample: with alice already inactive and her traffic record
non-zero, `deactivate_client` is not a no-op — it still runs the full
down/up reconcile — and it does not reset her Traffic Ledger record to
zeros, although it does return success. -/
theorem C1_counterexample :
    (∀ c ∈ stInactive.db.clients, c.userData = "alice" → c.active = false) ∧
    (deactivate_client okExec stInactive "alice").2 = .ok "success" ∧
    (deactivate_client okExec stInactive "alice").1.ranCmds = [wgDown cfg0, wgUp cfg0] ∧
    alookup (deactivate_client okExec stInactive "alice").1.trafficFiles "alice" =
      some [("incoming", JVal.jnum 7), ("outgoing", JVal.jnum 3)] := by
  refine ⟨by decide, rfl, rfl, rfl⟩

/-- C1 amended: whenever the username exists in the store (whether active
or already inactive) and both interface commands succeed,
`deactivate_user` succeeds, triggers exactly one reconcile (exactly one
down invocation followed by one up invocation appended to the trace),
marks the client inactive in the store, and leaves the Traffic Ledger
files untouched — there is no already-inactive no-op path and no traffic
reset. -/
theorem C1_amended_deactivate (osExec : List String → Int) (st : ServerState) (u : String)
    (hex : st.db.clients.any (fun c => c.userData = u) = true)
    (hdown : osExec (wgDown st.db.config) = 0)
    (hup : osExec (wgUp st.db.config) = 0) :
    (deactivate_user osExec st u).2 = none ∧
    (deactivate_user osExec st u).1.ranCmds =
      st.ranCmds ++ [wgDown st.db.config, wgUp st.db.config] ∧
    (deactivate_user osExec st u).1.trafficFiles = st.trafficFiles ∧
    ∀ c ∈ (deactivate_user osExec st u).1.db.clients, c.userData = u → c.active = false := by
  have hred : deactivate_user osExec st u =
      ({ st with
          db := { st.db with clients := st.db.clients.map fun c =>
            if c.userData = u then { c with active := false } else c },
          ranCmds := st.ranCmds ++ [wgDown st.db.config, wgUp st.db.config] }, none) := by
    simp [deactivate_user, Db.get_config, runCmd, Db.deactive_user_db, hex, hdown, hup]
  refine ⟨by rw [hred], by rw [hred], by rw [hred], ?_⟩
  rw [hred]
  intro c hc hcu
  simp only [List.mem_map] at hc
  obtain ⟨a, _, rfl⟩ := hc
  by_cases ha : a.userData = u
  · simp [ha]
  · simp only [if_neg ha] at hcu ⊢
    exact absurd hcu ha

theorem C1_amended_witness :
    (deactivate_user okExec st1 "alice").2 = none :=
  (C1_amended_deactivate okExec st1 "alice" (by decide) rfl rfl).1

/-- C4 counterexample: deleting the *active* client bob succeeds (no
InvalidState failure) and purges nothing — the identity record remains
(merely marked inactive) and the policy and traffic records survive
untouched. -/
theorem C4_counterexample :
    (∃ c ∈ stBob.db.clients, c.userData = "bob" ∧ c.active = true) ∧
    (delete_client stBob "bob").2 = .ok "Client bob successfully deleted" ∧
    (∃ c ∈ (delete_client stBob "bob").1.db.clients, c.userData = "bob") ∧
    alookup (delete_client stBob "bob").1.db.policies "bob" = some (some 5, some "1GB") ∧
    alookup (delete_client stBob "bob").1.trafficFiles "bob" =
      some [("incoming", JVal.jnum 11)] := by
  refine ⟨by decide, rfl, by decide, rfl, rfl⟩

/-- C4 amended: `delete_client` succeeds for any username present in the
store regardless of its activation state — it never checks for a prior
Deactivated state and never fails InvalidState — and purges none of the
three ledgers: it only marks the client record inactive, leaving the
policy records and the traffic files unchanged; it fails (as a wrapped
NotFound) only when the username is absent. -/
theorem C4_amended_delete (st : ServerState) (u : String) :
    (st.db.clients.any (fun c => c.userData = u) = true →
      (delete_client st u).2 = .ok ("Client " ++ u ++ " successfully deleted") ∧
      (delete_client st u).1.db.clients =
        st.db.clients.map (fun c => if c.userData = u then { c with active := false } else c) ∧
      (delete_client st u).1.db.policies = st.db.policies ∧
      (delete_client st u).1.trafficFiles = st.trafficFiles) ∧
    (st.db.clients.any (fun c => c.userData = u) = false →
      (delete_client st u).2 = .error (.http 500 (errStr (.notFound u))) ∧
      (delete_client st u).1 = st) := by
  constructor
  · intro hex
    simp [delete_client, Db.deactive_user_db, hex]
  · intro hex
    simp [delete_client, Db.deactive_user_db, hex]

theorem C4_witness :
    (delete_client stBob "bob").1.trafficFiles = stBob.trafficFiles :=
  (((C4_amended_delete stBob "bob").1 (by decide)).2).2.2

/-- C7: the reconcile performed by `deactivate_user` invokes the
interface-control commands down first and then up — on success the trace
gains exactly the down invocation followed by the up invocation — and a
non-zero exit status of either step surfaces as a `CalledProcessError`
carrying that exit status (the up step is never reached when down
fails). -/
theorem C7_reconcile (osExec : List String → Int) (st : ServerState) (u : String) :
    ((deactivate_user osExec st u).2 = none →
      (deactivate_user osExec st u).1.ranCmds =
        st.ranCmds ++ [wgDown st.db.config, wgUp st.db.config]) ∧
    (osExec (wgDown st.db.config) ≠ 0 →
      (deactivate_user osExec st u).2 =
        some (.calledProcess (osExec (wgDown st.db.config)) (wgDown st.db.config)) ∧
      (deactivate_user osExec st u).1.ranCmds = st.ranCmds ++ [wgDown st.db.config]) ∧
    (osExec (wgDown st.db.config) = 0 →
      st.db.clients.any (fun c => c.userData = u) = true →
      osExec (wgUp st.db.config) ≠ 0 →
      (deactivate_user osExec st u).2 =
        some (.calledProcess (osExec (wgUp st.db.config)) (wgUp st.db.config)) ∧
      (deactivate_user osExec st u).1.ranCmds =
        st.ranCmds ++ [wgDown st.db.config, wgUp st.db.config]) := by
  refine ⟨?_, ?_, ?_⟩
  · intro h
    by_cases hdown : osExec (wgDown st.db.config) = 0
    · cases hex : st.db.clients.any (fun c => c.userData = u) with
      | false =>
          exfalso
          simp [deactivate_user, Db.get_config, runCmd, Db.deactive_user_db, hdown, hex] at h
      | true =>
          by_cases hup : osExec (wgUp st.db.config) = 0
          · simp [deactivate_user, Db.get_config, runCmd, Db.deactive_user_db, hdown, hex, hup]
          · exfalso
            simp [deactivate_user, Db.get_config, runCmd, Db.deactive_user_db,
              hdown, hex, hup] at h
    · exfalso
      simp [deactivate_user, Db.get_config, runCmd, hdown] at h
  · intro hdown
    simp [deactivate_user, Db.get_config, runCmd, hdown]
  · intro hdown hex hup
    simp [deactivate_user, Db.get_config, runCmd, Db.deactive_user_db, hdown, hex, hup]

theorem C7_witness :
    (deactivate_user badExec st1 "alice").2 =
      some (.calledProcess (badExec (wgUp st1.db.config)) (wgUp st1.db.config)) :=
  (((C7_reconcile badExec st1 "alice").2.2) (by decide) (by decide) (by decide)).1

/-- On any state that already holds a client with the requested username,
`create_client` returns the wrapped DuplicateClient error and leaves the
state unchanged. -/
theorem create_client_dup (qrOf tokenOf : String → String) (k cfgT : String)
    (s : ServerState) (client : ClientCreate)
    (hdup : ∃ x ∈ s.db.clients, x.userData = client.username) :
    create_client qrOf tokenOf k cfgT s client =
      (s, .error (.http 500 (errStr (.duplicateClient client.username)))) := by
  simp [create_client, Db.root_add, hdup]

/-- C8: when the username is fresh, the first `create_client` succeeds and
returns the rendered config with its QR code and token; a second
`create_client` for the same username fails with the DuplicateClient
error of the store (wrapped by the endpoint as HTTP 500 around its
message) and changes nothing: the resulting state — in particular the
first client record — is exactly the state after the first call. -/
theorem C8_duplicate_create (qrOf tokenOf : String → String) (k1 cfg1 k2 cfg2 : String)
    (st : ServerState) (client : ClientCreate)
    (hfresh : st.db.clients.any (fun c => c.userData = client.username) = false) :
    (create_client qrOf tokenOf k1 cfg1 st client).2 =
      .ok ⟨client.username, cfg1, qrOf cfg1, tokenOf cfg1⟩ ∧
    (create_client qrOf tokenOf k2 cfg2
        (create_client qrOf tokenOf k1 cfg1 st client).1 client).2 =
      .error (.http 500 (errStr (.duplicateClient client.username))) ∧
    (create_client qrOf tokenOf k2 cfg2
        (create_client qrOf tokenOf k1 cfg1 st client).1 client).1 =
      (create_client qrOf tokenOf k1 cfg1 st client).1 := by
  have hok : (create_client qrOf tokenOf k1 cfg1 st client).1.db.clients =
      st.db.clients ++ [⟨client.username, k1, true⟩] := by
    cases hpol : (client.expiration.isSome || client.traffic_limit.isSome) <;>
      simp [create_client, Db.root_add, Db.set_user_expiration, hfresh, hpol,
        alookup_aset_self]
  have hany : ∃ x ∈ (create_client qrOf tokenOf k1 cfg1 st client).1.db.clients,
      x.userData = client.username := by
    rw [hok]
    exact ⟨⟨client.username, k1, true⟩, by simp, rfl⟩
  refine ⟨?_, ?_, ?_⟩
  · cases hpol : (client.expiration.isSome || client.traffic_limit.isSome) <;>
      simp [create_client, Db.root_add, Db.set_user_expiration, hfresh, hpol,
        alookup_aset_self]
  · rw [create_client_dup qrOf tokenOf k2 cfg2 _ client hany]
  · rw [create_client_dup qrOf tokenOf k2 cfg2 _ client hany]

theorem C8_witness :
    (create_client strId strId "k2" "conf2"
        (create_client strId strId "k1" "conf1" stEmpty
          (ClientCreate.mk "alice" none none false)).1
        (ClientCreate.mk "alice" none none false)).2 =
      .error (.http 500 (errStr (.duplicateClient "alice"))) :=
  (C8_duplicate_create strId strId "k1" "conf1" "k2" "conf2" stEmpty
    (ClientCreate.mk "alice" none none false) (by decide)).2.1

end AwgApi
